import Mathlib

set_option linter.unusedVariables false

/-!
Verification of the hardware abstraction layer of the `genius-iot` smart-home
dashboard (`src/hardware_controller.py`, `src/Home_Dashboard.py`).

The two controller implementations (`MockController`, `RaspberryPiController`)
and the platform selector (`get_controller`) are shallowly embedded:

* Python objects become Lean structures; in-place mutation becomes explicit
  state passing (`State → State`, or `State → Except PyError State` where the
  Python method can raise an uncaught exception).
* Python numbers are modelled by exact rationals `ℚ` (integers by `ℤ`); the
  built-in `round(x, n)` is modelled by `pyRound`, round-half-to-even on the
  exact value, which agrees with CPython on every input appearing here.
* Nondeterministic or environmental inputs (random noise, the echo-pulse
  timestamps, camera initialisation success, filesystem contents, the
  platform machine string) are passed as explicit parameters.
-/

/-- Python exceptions that escape a method of the hardware layer. -/
inductive PyError where
  | attributeError   -- calling a method on `None`
  | importError      -- `import RPi.GPIO` / `picamera2` failed
  | runtimeError     -- the GPIO library raised at import time
deriving DecidableEq, Repr

/-- Round-half-to-even to the nearest integer, Python's `round(x)` on the
exact value of `x`. -/
def pyRoundInt (x : ℚ) : ℤ :=
  if x - ⌊x⌋ < 1/2 then ⌊x⌋
  else if 1/2 < x - ⌊x⌋ then ⌊x⌋ + 1
  else if ⌊x⌋ % 2 = 0 then ⌊x⌋ else ⌊x⌋ + 1

/-- Python's `round(x, ndigits)` on the exact value of `x`. -/
def pyRound (ndigits : ℕ) (x : ℚ) : ℚ :=
  (pyRoundInt (x * 10 ^ ndigits) : ℚ) / 10 ^ ndigits

theorem pyRoundInt_of_lt {x : ℚ} {f : ℤ} (hf : ⌊x⌋ = f) (h : x - f < 1/2) :
    pyRoundInt x = f := by
  simp only [pyRoundInt, hf]
  rw [if_pos h]

theorem pyRoundInt_of_gt {x : ℚ} {f : ℤ} (hf : ⌊x⌋ = f) (h : 1/2 < x - f) :
    pyRoundInt x = f + 1 := by
  simp only [pyRoundInt, hf]
  rw [if_neg (by linarith), if_pos h]

theorem pyRoundInt_of_half_odd {x : ℚ} {f : ℤ} (hf : ⌊x⌋ = f) (h : x - f = 1/2)
    (hodd : f % 2 = 1) : pyRoundInt x = f + 1 := by
  simp only [pyRoundInt, hf]
  rw [if_neg (by linarith), if_neg (by linarith), if_neg (by omega)]

theorem pyRoundInt_of_half_even {x : ℚ} {f : ℤ} (hf : ⌊x⌋ = f) (h : x - f = 1/2)
    (heven : f % 2 = 0) : pyRoundInt x = f := by
  simp only [pyRoundInt, hf]
  rw [if_neg (by linarith), if_neg (by linarith), if_pos heven]

theorem floor_le_pyRoundInt (x : ℚ) : ⌊x⌋ ≤ pyRoundInt x := by
  unfold pyRoundInt
  split
  · exact le_refl _
  · split
    · omega
    · split <;> omega

theorem pyRoundInt_le_of_le (x : ℚ) (z : ℤ) (h : x ≤ (z : ℚ)) : pyRoundInt x ≤ z := by
  have hfloor : ⌊x⌋ ≤ z := Int.floor_le_floor h |>.trans_eq (Int.floor_intCast z)
  unfold pyRoundInt
  split
  · exact hfloor
  · have hfrac : ¬ (x - ⌊x⌋ < 1/2) := by assumption
    push_neg at hfrac
    have hfl : (⌊x⌋ : ℚ) ≤ x - 1/2 := by linarith
    have hlt : (⌊x⌋ : ℚ) < (z : ℚ) := by
      have := Int.floor_le x
      linarith
    have hzlt : ⌊x⌋ < z := by exact_mod_cast hlt
    split
    · omega
    · split <;> omega

theorem le_pyRoundInt_of_le (x : ℚ) (z : ℤ) (h : (z : ℚ) ≤ x) : z ≤ pyRoundInt x := by
  have : z ≤ ⌊x⌋ := Int.le_floor.mpr h
  exact this.trans (floor_le_pyRoundInt x)

section MockControllerDefs

/-- The in-memory state of `MockController` (`hardware_controller.py`). -/
structure MockController where
  room_light_state : Bool
  dimmable_light_brightness : ℤ
  mood_lamp_color : ℤ × ℤ × ℤ
  doorbell_pressed : Bool
deriving DecidableEq, Repr

/-- `MockController.__init__`. -/
def MockController.initial : MockController :=
  { room_light_state := false
    dimmable_light_brightness := 100
    mood_lamp_color := (255, 255, 255)
    doorbell_pressed := false }

/-- `MockController.setup`: prints only, mutates nothing. -/
def MockController.setup (c : MockController) : MockController := c

/-- `MockController.set_room_light`. -/
def MockController.set_room_light (c : MockController) (state : Bool) : MockController :=
  { c with room_light_state := state }

/-- `MockController.set_dimmable_light`. -/
def MockController.set_dimmable_light (c : MockController) (brightness : ℤ) : MockController :=
  { c with dimmable_light_brightness := brightness }

/-- `MockController.set_mood_lamp_color`. -/
def MockController.set_mood_lamp_color (c : MockController) (r g b : ℤ) : MockController :=
  { c with mood_lamp_color := (r, g, b) }

/-- `MockController.read_doorbell`: returns the stored flag; the state after
the call is the state before it (the method body only reads the field). -/
def MockController.read_doorbell (c : MockController) : Bool × MockController :=
  (c.doorbell_pressed, c)

/-- The external toggle performed by the dashboard button
(`Home_Dashboard.py`: `hw._doorbell_pressed = not hw._doorbell_pressed`). -/
def MockController.toggle_doorbell (c : MockController) : MockController :=
  { c with doorbell_pressed := !c.doorbell_pressed }

/-- `MockController.get_distance`, with the sample drawn by
`np.random.uniform(-1.5, 1.5)` passed in as `noise`. -/
def MockController.get_distance (noise : ℚ) : ℚ :=
  pyRound 1 (80 + noise)

/-- The placeholder path `os.path.join("assets", "placeholder.jpg")`. -/
def placeholder_path : String := "assets/placeholder.jpg"

/-- `MockController.capture_image`, with `os.path.exists` abstracted as the
predicate `fs`.  The requested `output_path` is never written to and never
returned; the method only tests and returns the fixed placeholder path. -/
def MockController.capture_image (fs : String → Bool) (output_path : String) :
    Option String :=
  if fs placeholder_path then some placeholder_path else none

/-- `MockController.cleanup`: prints only, mutates nothing. -/
def MockController.cleanup (c : MockController) : MockController := c

end MockControllerDefs

section RaspberryPiDefs

/-- A `GPIO.PWM` software PWM generator object. -/
structure PWM where
  pin : ℕ
  freq : ℚ
  duty : ℚ
  running : Bool
deriving DecidableEq, Repr

/-- `GPIO.PWM(pin, freq)`. -/
def PWM.create (pin : ℕ) (freq : ℚ) : PWM :=
  { pin := pin, freq := freq, duty := 0, running := false }

/-- `p.start(dc)`. -/
def PWM.start (p : PWM) (dc : ℚ) : PWM := { p with duty := dc, running := true }

/-- `p.ChangeDutyCycle(dc)`. -/
def PWM.ChangeDutyCycle (p : PWM) (dc : ℚ) : PWM := { p with duty := dc }

/-- `p.stop()`. -/
def PWM.stop (p : PWM) : PWM := { p with running := false }

/-- A `Picamera2` camera session handle. -/
structure Camera where
  started : Bool
deriving DecidableEq, Repr

/-- `picam2.stop()`. -/
def Camera.stop (c : Camera) : Camera := { c with started := false }

/-- Direction/pull configuration of a claimed GPIO channel. -/
inductive PinMode where
  | output
  | input
  | inputPullUp
deriving DecidableEq, Repr

/-- The module-level state of the `RPi.GPIO` library. -/
structure GpioState where
  bcmMode : Bool
  warnings : Bool
  pins : List (ℕ × PinMode)
deriving DecidableEq, Repr

/-- The GPIO library state before `GPIO.setmode` / `GPIO.setup` ran. -/
def GpioState.initial : GpioState := { bcmMode := false, warnings := true, pins := [] }

/-- `GPIO.cleanup()`: releases every claimed channel. -/
def GpioState.cleanupPins (g : GpioState) : GpioState := { g with pins := [] }

-- BCM pin assignments fixed in `RaspberryPiController.__init__`.
def LED_PIN : ℕ := 12
def BTN_PIN : ℕ := 25
def TRIG_PIN : ℕ := 22
def ECHO_PIN : ℕ := 27
def R_PIN : ℕ := 18
def G_PIN : ℕ := 23
def B_PIN : ℕ := 24

/-- The mutable state of a `RaspberryPiController` object. -/
structure RaspberryPiController where
  pwm_led : Option PWM
  pwm_r : Option PWM
  pwm_g : Option PWM
  pwm_b : Option PWM
  picam2 : Option Camera
  gpio : GpioState
deriving DecidableEq, Repr

/-- Outcome of the `import RPi.GPIO` / `from picamera2 import Picamera2`
statements inside `RaspberryPiController.__init__` on the running platform. -/
inductive ImportOutcome where
  | ok
  | importError
  | runtimeError
deriving DecidableEq, Repr

/-- The object produced by a successful `RaspberryPiController.__init__`:
every PWM handle and the camera handle is `None`. -/
def RaspberryPiController.initial : RaspberryPiController :=
  { pwm_led := none, pwm_r := none, pwm_g := none, pwm_b := none,
    picam2 := none, gpio := GpioState.initial }

/-- `RaspberryPiController()`: the constructor catches and re-raises
`ImportError` and `RuntimeError` from the platform-library imports, else
returns the fresh object. -/
def RaspberryPiController.construct : ImportOutcome → Except PyError RaspberryPiController
  | .ok => .ok RaspberryPiController.initial
  | .importError => .error .importError
  | .runtimeError => .error .runtimeError

/-- Environmental outcome of the camera-initialisation block in `setup`. -/
inductive CameraOutcome where
  | startsOk          -- `Picamera2()` starts and reports `started`
  | startsNotStarted  -- no exception, but `picam2.started` is false
  | raises            -- some step of the camera block raised
deriving DecidableEq, Repr

/-- `RaspberryPiController.setup`: claims the GPIO channels, starts the four
PWM generators at duty 0, then tries to initialise the camera; a camera
failure (exception, or `started` false) leaves `picam2 = None` and the
method still returns normally. -/
def RaspberryPiController.setup (c : RaspberryPiController) (cam : CameraOutcome) :
    RaspberryPiController :=
  let gpio1 : GpioState :=
    { bcmMode := true
      warnings := false
      pins := [(LED_PIN, .output), (R_PIN, .output), (G_PIN, .output), (B_PIN, .output),
               (BTN_PIN, .inputPullUp), (TRIG_PIN, .output), (ECHO_PIN, .input)] }
  let c1 := { c with
    gpio := gpio1
    pwm_led := some ((PWM.create LED_PIN 500).start 0)
    pwm_r := some ((PWM.create R_PIN 100).start 0)
    pwm_g := some ((PWM.create G_PIN 100).start 0)
    pwm_b := some ((PWM.create B_PIN 100).start 0) }
  match cam with
  | .startsOk => { c1 with picam2 := some { started := true } }
  | .startsNotStarted => { c1 with picam2 := none }
  | .raises => { c1 with picam2 := none }

/-- Python attribute access `h.meth(...)` on a handle that may be `None`:
raises `AttributeError` when the handle is `None`. -/
def onHandle {α β : Type} (h : Option α) (meth : α → β) : Except PyError β :=
  match h with
  | none => .error .attributeError
  | some a => .ok (meth a)

/-- `RaspberryPiController.set_room_light`. -/
def RaspberryPiController.set_room_light (c : RaspberryPiController) (state : Bool) :
    Except PyError RaspberryPiController := do
  let brightness : ℚ := if state then 100 else 0
  let p ← onHandle c.pwm_led (fun p => p.ChangeDutyCycle brightness)
  .ok { c with pwm_led := some p }

/-- `RaspberryPiController.set_dimmable_light`. -/
def RaspberryPiController.set_dimmable_light (c : RaspberryPiController) (brightness : ℚ) :
    Except PyError RaspberryPiController := do
  let p ← onHandle c.pwm_led (fun p => p.ChangeDutyCycle brightness)
  .ok { c with pwm_led := some p }

/-- `RaspberryPiController.set_mood_lamp_color`: converts each 0–255 value to
a duty cycle `v / 255.0 * 100` and applies it to the matching channel. -/
def RaspberryPiController.set_mood_lamp_color (c : RaspberryPiController) (r g b : ℤ) :
    Except PyError RaspberryPiController := do
  let pr ← onHandle c.pwm_r (fun p => p.ChangeDutyCycle ((r : ℚ) / 255 * 100))
  let pg ← onHandle c.pwm_g (fun p => p.ChangeDutyCycle ((g : ℚ) / 255 * 100))
  let pb ← onHandle c.pwm_b (fun p => p.ChangeDutyCycle ((b : ℚ) / 255 * 100))
  .ok { c with pwm_r := some pr, pwm_g := some pg, pwm_b := some pb }

/-- `RaspberryPiController.read_doorbell`: true iff the sampled button pin
level (`GPIO.input(BTN_PIN)`) is `GPIO.LOW`. -/
def RaspberryPiController.read_doorbell (pinLevelHigh : Bool) : Bool :=
  !pinLevelHigh

/-- `RaspberryPiController.get_distance`: after the 0.5 s settle and the
10 µs trigger pulse, the two busy-wait loops leave `pulse_start` holding the
sample time of the echo pin's low→high transition and `pulse_end` that of
its high→low transition (seconds); the distance in cm is the scaled pulse
duration rounded to two decimals. -/
def RaspberryPiController.get_distance (pulse_start pulse_end : ℚ) : ℚ :=
  pyRound 2 ((pulse_end - pulse_start) * 17150)

/-- Environmental outcome of `picam2.capture_file` on a live camera. -/
inductive CaptureOutcome where
  | ok
  | fails
deriving DecidableEq, Repr

/-- `RaspberryPiController.capture_image`: the whole body sits in
`try/except Exception`, so a `None` camera handle (an `AttributeError`) or a
failing `capture_file` yields `None`; on success the requested path is
returned. -/
def RaspberryPiController.capture_image (c : RaspberryPiController)
    (cap : CaptureOutcome) (output_path : String) : Option String :=
  match c.picam2, cap with
  | none, _ => none
  | some _, .fails => none
  | some _, .ok => some output_path

/-- `RaspberryPiController.cleanup`: stops the four PWM handles in order,
releases the GPIO channels, then stops the camera handle.  Each `h.stop()`
on a `None` handle raises `AttributeError` (the in-place mutations performed
before the raise are not observed by any caller of `cleanup`). -/
def RaspberryPiController.cleanup (c : RaspberryPiController) :
    Except PyError RaspberryPiController := do
  let led ← onHandle c.pwm_led PWM.stop
  let r ← onHandle c.pwm_r PWM.stop
  let g ← onHandle c.pwm_g PWM.stop
  let b ← onHandle c.pwm_b PWM.stop
  let gpio1 := c.gpio.cleanupPins
  let cam ← onHandle c.picam2 Camera.stop
  .ok { c with pwm_led := some led, pwm_r := some r, pwm_g := some g,
               pwm_b := some b, gpio := gpio1, picam2 := some cam }

/-- The duty cycle of an optional PWM handle. -/
def dutyOf : Option PWM → Option ℚ
  | none => none
  | some p => some p.duty

/-- The running flag of an optional PWM handle. -/
def runningOf : Option PWM → Option Bool
  | none => none
  | some p => some p.running

end RaspberryPiDefs

section SelectorDefs

/-- The two controller variants `get_controller` can return. -/
inductive Controller where
  | mock (c : MockController)
  | pi (c : RaspberryPiController)
deriving DecidableEq, Repr

/-- Python `str.startswith(pre)`, modelled on the character sequence of the
strings. -/
def pyStartsWith (s pre : String) : Bool := pre.data.isPrefixOf s.data

/-- `Home_Dashboard.get_controller`, with the platform machine string and the
constructor's import outcome passed in.  The Boolean component records
whether the `st.warning(...)` fallback message was surfaced to the caller. -/
def get_controller (machine : String) (imp : ImportOutcome) : Controller × Bool :=
  let is_pi := pyStartsWith machine "arm" || pyStartsWith machine "aarch64"
  if is_pi then
    match RaspberryPiController.construct imp with
    | .ok c => (.pi c, false)
    | .error _ => (.mock MockController.initial, true)
  else
    (.mock MockController.initial, false)

end SelectorDefs

/-- Claim C1 (refuted by the code): `RaspberryPiController.cleanup` is NOT
safe after a failed or partial setup.  Calling it before `setup` ran
(`pwm_led` is `None`) or after `setup` with a failed camera initialisation
(`picam2` is `None`) raises `AttributeError` from `.stop()` on `None`; it
only completes after a fully successful setup. -/
theorem claim_C1_bug :
    RaspberryPiController.initial.cleanup = .error PyError.attributeError ∧
    (RaspberryPiController.initial.setup CameraOutcome.raises).cleanup
      = .error PyError.attributeError ∧
    (RaspberryPiController.initial.setup CameraOutcome.startsNotStarted).cleanup
      = .error PyError.attributeError ∧
    ∃ c2, (RaspberryPiController.initial.setup CameraOutcome.startsOk).cleanup = .ok c2 := by
  exact ⟨rfl, rfl, rfl, _, rfl⟩

/-- Claim C2: `get_distance` scales the echo pulse duration by 17150 and
rounds to two decimals; for the transitions at t = 0.0002 s and t = 0.0007 s
the exact product is 8.575 cm, which rounds to 8.58. -/
theorem claim_C2 :
    (∀ pulse_start pulse_end : ℚ,
       RaspberryPiController.get_distance pulse_start pulse_end
         = pyRound 2 ((pulse_end - pulse_start) * 17150)) ∧
    ((7 : ℚ)/10000 - 2/10000) * 17150 = 8.575 ∧
    RaspberryPiController.get_distance (2/10000) (7/10000) = 8.58 := by
  refine ⟨fun _ _ => rfl, by norm_num, ?_⟩
  unfold RaspberryPiController.get_distance pyRound
  have h1 : (((7:ℚ)/10000 - 2/10000) * 17150 * 10 ^ (2:ℕ) : ℚ) = 1715/2 := by norm_num
  rw [h1]
  have hf : ⌊(1715/2 : ℚ)⌋ = 857 := by norm_num
  rw [pyRoundInt_of_half_odd hf (by norm_num) (by decide)]
  norm_num

/-- Claim C3: `set_mood_lamp_color` applies duty cycle `v / 255 * 100`
independently to the three PWM channels of the Physical controller, the
Simulated controller records exactly the tuple `(r, g, b)`, and for the
input (255, 128, 0) the duty cycles rounded to one decimal are
(100.0, 50.2, 0.0). -/
theorem claim_C3 (r g b : ℤ) (c : RaspberryPiController) (cam : CameraOutcome)
    (m : MockController) :
    (∃ c2, (c.setup cam).set_mood_lamp_color r g b = .ok c2 ∧
       dutyOf c2.pwm_r = some ((r : ℚ) / 255 * 100) ∧
       dutyOf c2.pwm_g = some ((g : ℚ) / 255 * 100) ∧
       dutyOf c2.pwm_b = some ((b : ℚ) / 255 * 100)) ∧
    (m.set_mood_lamp_color r g b).mood_lamp_color = (r, g, b) ∧
    pyRound 1 ((255 : ℚ) / 255 * 100) = 100 ∧
    pyRound 1 ((128 : ℚ) / 255 * 100) = 50.2 ∧
    pyRound 1 ((0 : ℚ) / 255 * 100) = 0 := by
  refine ⟨?_, rfl, ?_, ?_, ?_⟩
  · cases cam <;> exact ⟨_, rfl, rfl, rfl, rfl⟩
  · unfold pyRound
    have h1 : ((255 : ℚ)/255*100 * 10 ^ (1:ℕ) : ℚ) = 1000 := by norm_num
    rw [h1]
    have hf : ⌊(1000 : ℚ)⌋ = 1000 := by norm_num
    rw [pyRoundInt_of_lt hf (by norm_num)]
    norm_num
  · unfold pyRound
    have h1 : ((128 : ℚ)/255*100 * 10 ^ (1:ℕ) : ℚ) = 25600/51 := by norm_num
    rw [h1]
    have hf : ⌊(25600/51 : ℚ)⌋ = 501 := by norm_num [Int.floor_eq_iff]
    rw [pyRoundInt_of_gt hf (by norm_num)]
    norm_num
  · unfold pyRound
    have h1 : ((0 : ℚ)/255*100 * 10 ^ (1:ℕ) : ℚ) = 0 := by norm_num
    rw [h1]
    have hf : ⌊(0 : ℚ)⌋ = 0 := by norm_num
    rw [pyRoundInt_of_lt hf (by norm_num)]
    norm_num

/-- Claim C4: `get_controller` returns the Physical controller exactly when
the machine string starts with "arm" or "aarch64" and construction succeeds;
on non-ARM platforms it returns the Simulated controller, and a construction
failure on an ARM platform is caught, a warning is surfaced, and the
Simulated controller is returned. -/
theorem claim_C4 (machine : String) (imp : ImportOutcome) :
    (pyStartsWith machine "arm" = false → pyStartsWith machine "aarch64" = false →
       get_controller machine imp = (.mock MockController.initial, false)) ∧
    ((pyStartsWith machine "arm" = true ∨ pyStartsWith machine "aarch64" = true) →
       imp = .ok →
       get_controller machine imp = (.pi RaspberryPiController.initial, false)) ∧
    ((pyStartsWith machine "arm" = true ∨ pyStartsWith machine "aarch64" = true) →
       imp ≠ .ok →
       get_controller machine imp = (.mock MockController.initial, true)) := by
  unfold get_controller
  refine ⟨?_, ?_, ?_⟩
  · intro h1 h2
    simp [h1, h2]
  · rintro h himp
    subst himp
    have hb : (pyStartsWith machine "arm" || pyStartsWith machine "aarch64") = true := by
      rcases h with h | h <;> simp [h]
    simp [hb, RaspberryPiController.construct]
  · rintro h himp
    have hb : (pyStartsWith machine "arm" || pyStartsWith machine "aarch64") = true := by
      rcases h with h | h <;> simp [h]
    cases imp with
    | ok => exact absurd rfl himp
    | importError => simp [hb, RaspberryPiController.construct]
    | runtimeError => simp [hb, RaspberryPiController.construct]

theorem claim_C4_witness :
    get_controller "x86_64" ImportOutcome.ok = (Controller.mock MockController.initial, false) ∧
    get_controller "armv7l" ImportOutcome.ok
      = (Controller.pi RaspberryPiController.initial, false) ∧
    get_controller "aarch64" ImportOutcome.importError
      = (Controller.mock MockController.initial, true) := by
  refine ⟨(claim_C4 "x86_64" ImportOutcome.ok).1 (by decide) (by decide),
          (claim_C4 "armv7l" ImportOutcome.ok).2.1 (Or.inl (by decide)) rfl,
          (claim_C4 "aarch64" ImportOutcome.importError).2.2 (Or.inr (by decide)) (by decide)⟩

/-- Claim C5: `setup` starts the room/dimmable PWM generator and the three
RGB PWM generators at duty 0, and any camera-initialisation failure (an
exception, or the camera not reporting started) leaves `picam2 = None`
while `setup` still completes (it is a total function of the outcome). -/
theorem claim_C5 (c : RaspberryPiController) (cam : CameraOutcome) :
    dutyOf (c.setup cam).pwm_led = some 0 ∧
    runningOf (c.setup cam).pwm_led = some true ∧
    dutyOf (c.setup cam).pwm_r = some 0 ∧
    runningOf (c.setup cam).pwm_r = some true ∧
    dutyOf (c.setup cam).pwm_g = some 0 ∧
    runningOf (c.setup cam).pwm_g = some true ∧
    dutyOf (c.setup cam).pwm_b = some 0 ∧
    runningOf (c.setup cam).pwm_b = some true ∧
    (cam = .startsOk → (c.setup cam).picam2 = some { started := true }) ∧
    (cam ≠ .startsOk → (c.setup cam).picam2 = none) := by
  cases cam <;>
    simp [RaspberryPiController.setup, dutyOf, runningOf, PWM.create, PWM.start]

theorem claim_C5_witness :
    dutyOf (RaspberryPiController.initial.setup CameraOutcome.raises).pwm_led = some 0 ∧
    (RaspberryPiController.initial.setup CameraOutcome.raises).picam2 = none := by
  exact ⟨(claim_C5 RaspberryPiController.initial CameraOutcome.raises).1,
         (claim_C5 RaspberryPiController.initial CameraOutcome.raises).2.2.2.2.2.2.2.2.2
           (by decide)⟩

/-- Claim C6: the Physical controller's `capture_image` returns `None` on
any failure (camera handle absent, or a capture error) and never raises; on
success it returns the requested path. -/
theorem claim_C6 (c : RaspberryPiController) (cap : CaptureOutcome) (output_path : String) :
    (c.picam2 = none → c.capture_image cap output_path = none) ∧
    (cap = .fails → c.capture_image cap output_path = none) ∧
    (c.picam2 ≠ none → cap = .ok → c.capture_image cap output_path = some output_path) := by
  refine ⟨?_, ?_, ?_⟩
  · intro h
    cases cap <;> simp [RaspberryPiController.capture_image, h]
  · intro h
    subst h
    cases hc : c.picam2 <;> simp [RaspberryPiController.capture_image, hc]
  · intro h1 h2
    subst h2
    cases hc : c.picam2 with
    | none => exact absurd hc h1
    | some cam => simp [RaspberryPiController.capture_image, hc]

theorem claim_C6_witness :
    (RaspberryPiController.initial.setup CameraOutcome.raises).capture_image
      CaptureOutcome.ok "snapshot.jpg" = none ∧
    (RaspberryPiController.initial.setup CameraOutcome.startsOk).capture_image
      CaptureOutcome.ok "snapshot.jpg" = some "snapshot.jpg" := by
  exact ⟨(claim_C6 _ CaptureOutcome.ok "snapshot.jpg").1 rfl,
         (claim_C6 _ CaptureOutcome.ok "snapshot.jpg").2.2
           (by simp [RaspberryPiController.setup]) rfl⟩

/-- Claim C7: the Simulated controller's `capture_image` returns the fixed
placeholder path exactly when that file exists, `None` otherwise, and its
result is independent of the requested output path (no copy is made, so the
returned path may differ from the requested one). -/
theorem claim_C7 (fs : String → Bool) (output_path : String) :
    (fs placeholder_path = true →
       MockController.capture_image fs output_path = some placeholder_path) ∧
    (fs placeholder_path = false →
       MockController.capture_image fs output_path = none) ∧
    (∀ other : String,
       MockController.capture_image fs output_path = MockController.capture_image fs other) := by
  refine ⟨?_, ?_, fun other => rfl⟩
  · intro h
    simp [MockController.capture_image, h]
  · intro h
    simp [MockController.capture_image, h]

theorem claim_C7_witness :
    MockController.capture_image (fun _ => true) "snapshot.jpg" = some placeholder_path ∧
    MockController.capture_image (fun _ => false) "snapshot.jpg" = none := by
  exact ⟨(claim_C7 (fun _ => true) "snapshot.jpg").1 rfl,
         (claim_C7 (fun _ => false) "snapshot.jpg").2.1 rfl⟩

/-- Claim C8: every Simulated `get_distance` sample equals
`round(80 + noise, 1)` for a noise value in [-1.5, 1.5], and therefore lies
within [78.5, 81.5]. -/
theorem claim_C8 (noise : ℚ) (h1 : -(3/2) ≤ noise) (h2 : noise ≤ 3/2) :
    MockController.get_distance noise = pyRound 1 (80 + noise) ∧
    78.5 ≤ MockController.get_distance noise ∧
    MockController.get_distance noise ≤ 81.5 := by
  have e : ((80 + noise) * 10 ^ (1:ℕ) : ℚ) = 800 + 10 * noise := by ring
  have hpow : ((10:ℚ) ^ (1:ℕ)) = 10 := by norm_num
  have hlo : ((785:ℤ) : ℚ) ≤ 800 + 10 * noise := by push_cast; linarith
  have hhi : (800 + 10 * noise : ℚ) ≤ ((815:ℤ) : ℚ) := by push_cast; linarith
  have hlo' : (785 : ℚ) ≤ (pyRoundInt (800 + 10 * noise) : ℚ) := by
    exact_mod_cast le_pyRoundInt_of_le _ 785 hlo
  have hhi' : (pyRoundInt (800 + 10 * noise) : ℚ) ≤ 815 := by
    exact_mod_cast pyRoundInt_le_of_le _ 815 hhi
  refine ⟨rfl, ?_, ?_⟩
  · unfold MockController.get_distance pyRound
    rw [e, hpow]
    linarith
  · unfold MockController.get_distance pyRound
    rw [e, hpow]
    linarith

theorem claim_C8_witness :
    78.5 ≤ MockController.get_distance (1/2) ∧ MockController.get_distance (1/2) ≤ 81.5 := by
  exact ⟨(claim_C8 (1/2) (by norm_num) (by norm_num)).2.1,
         (claim_C8 (1/2) (by norm_num) (by norm_num)).2.2⟩

/-- Claim C9: the Simulated `read_doorbell` returns exactly the stored flag,
leaves the whole controller state unchanged, is idempotent, and reflects an
external toggle of the flag. -/
theorem claim_C9 (c : MockController) :
    c.read_doorbell.1 = c.doorbell_pressed ∧
    c.read_doorbell.2 = c ∧
    c.read_doorbell.2.read_doorbell.1 = c.read_doorbell.1 ∧
    c.toggle_doorbell.read_doorbell.1 = !c.doorbell_pressed := by
  exact ⟨rfl, rfl, rfl, rfl⟩

/-- Claim C10: a freshly constructed Simulated controller has room light off,
dimmable brightness 100, mood lamp colour (255, 255, 255) and doorbell flag
false — while the Physical controller's `setup` starts its shared
room/dimmable PWM channel at duty 0, not 100. -/
theorem claim_C10 :
    MockController.initial.room_light_state = false ∧
    MockController.initial.dimmable_light_brightness = 100 ∧
    MockController.initial.mood_lamp_color = (255, 255, 255) ∧
    MockController.initial.doorbell_pressed = false ∧
    ∀ (c : RaspberryPiController) (cam : CameraOutcome),
      dutyOf (c.setup cam).pwm_led = some 0 := by
  refine ⟨rfl, rfl, rfl, rfl, fun c cam => ?_⟩
  cases cam <;> rfl
